import Mathlib

/-!
Shallow embedding of the cloudflare-network-monitor check endpoint.

The source is a Deno/Fresh API handler.  JavaScript numbers appearing in the
scoring pipeline are modelled with `Nat` / `Int` / `Rat`: all quantities in
play are integers or exact ratios of integers (`visibility` counts are
non-negative per the data-model invariant, so they are `Nat`);
`Math.round` is modelled exactly by `jsRound` below (round half up, the JS
semantics for non-negative and negative arguments alike).  JS strings are
modelled as `String`, with the string operations the code uses
(`split`, `trim`, `includes`) re-implemented structurally over `String.data`
so that they evaluate inside the kernel.  `JSON.parse` is an oracle
parameter: any function `String → Option BgpEntry`, `none` meaning the parse
throws.  HTTP calls are modelled by passing the upstream outcome as data.
-/

/-- JS `Math.round`: round half toward positive infinity. -/
def jsRound (q : ℚ) : ℤ := (q + 1 / 2).floor

/-- The WHATWG fetch `Response.ok` predicate: status in the range 200–299. -/
def okStatus (status : ℕ) : Bool := 200 ≤ status && status ≤ 299

/-- Value of a single character as a digit in the given radix (JS `parseInt`
accepts `0`–`9`, `a`–`f`, `A`–`F`, rejecting digits at or above the radix). -/
def digitVal (radix : ℕ) (c : Char) : Option ℕ :=
  if c.isDigit then
    (if c.toNat - 48 < radix then some (c.toNat - 48) else none)
  else if 'a' ≤ c ∧ c ≤ 'f' then
    (if c.toNat - 87 < radix then some (c.toNat - 87) else none)
  else if 'A' ≤ c ∧ c ≤ 'F' then
    (if c.toNat - 55 < radix then some (c.toNat - 55) else none)
  else none

/-- Longest prefix of valid digits, as digit values. -/
def takeDigits (radix : ℕ) : List Char → List ℕ
  | [] => []
  | c :: rest =>
    match digitVal radix c with
    | some d => d :: takeDigits radix rest
    | none => []

/-- Value of a digit string read most-significant first. -/
def digitsVal (radix : ℕ) (ds : List ℕ) : ℕ :=
  ds.foldl (fun a d => a * radix + d) 0

/-- Unsigned part of JS `parseInt` with no explicit radix: an `0x`/`0X`
marker selects base 16, otherwise base 10; `none` models `NaN` (no digit). -/
def jsParseIntCore (cs : List Char) : Option ℕ :=
  match cs with
  | '0' :: 'x' :: r =>
    (fun ds => if ds.isEmpty then none else some (digitsVal 16 ds)) (takeDigits 16 r)
  | '0' :: 'X' :: r =>
    (fun ds => if ds.isEmpty then none else some (digitsVal 16 ds)) (takeDigits 16 r)
  | _ =>
    (fun ds => if ds.isEmpty then none else some (digitsVal 10 ds)) (takeDigits 10 cs)

/-- JS `parseInt(s)` (radix unspecified): skip leading whitespace, optional
sign, then the longest digit prefix; `none` models `NaN`. -/
def jsParseInt (s : String) : Option ℤ :=
  match s.data.dropWhile Char.isWhitespace with
  | '-' :: rest => (jsParseIntCore rest).map (fun n => -(n : ℤ))
  | '+' :: rest => (jsParseIntCore rest).map (fun n => (n : ℤ))
  | cs => (jsParseIntCore cs).map (fun n => (n : ℤ))

/-- JS `string.split(sep)` for a one-character separator (no regex). -/
def splitOnChar (sep : Char) : List Char → List (List Char)
  | [] => [[]]
  | c :: rest =>
    match splitOnChar sep rest with
    | [] => [[c]]
    | h :: t => if c == sep then [] :: h :: t else (c :: h) :: t

/-- JS `string.trim()`. -/
def trimChars (cs : List Char) : List Char :=
  ((cs.dropWhile Char.isWhitespace).reverse.dropWhile Char.isWhitespace).reverse

/-- JS `string.includes(":")` for the one-character needle used by the code. -/
def containsChar (needle : Char) (s : String) : Bool :=
  s.data.any (fun c => c == needle)

/-- One row of the BGP table snapshot (`{CIDR, ASN, Hits}` in the feed).
`Hits` is the visibility count; the data-model invariant `visibility ≥ 0`
is encoded by the type `Nat`. -/
structure BgpEntry where
  CIDR : String
  ASN : ℤ
  Hits : ℕ
deriving DecidableEq

/-- Address-family tag. -/
inductive AddrType where
  | v4
  | v6
deriving DecidableEq

/-- A low-visibility route annotation (`CfPrefixInfo` in the source).  The
`mask` is `parseInt` of the text after the first `/`; `none` models `NaN`
(absent or malformed mask). -/
structure CfPrefixInfo where
  pfx : String
  type : AddrType
  visibility : ℕ
  mask : Option ℤ
deriving DecidableEq

/-- One histogram bucket. -/
structure VisibilityBucket where
  label : String
  min : ℕ
  count : ℕ
deriving DecidableEq

/-- Static regional-IXP reference datum. -/
structure RegionalIxp where
  id : ℕ
  name : String
  country : String
deriving DecidableEq

/-- Static ISP reference datum. -/
structure IspInfo where
  asn : ℤ
  name : String
  country : String
deriving DecidableEq

/-- Per-IXP presence report. -/
structure IxpStatus where
  id : ℕ
  name : String
  country : String
  cfPresent : Bool
  ispPresent : Bool
  peered : Bool
deriving DecidableEq

/-- The `cfPrefixes` block of the report. -/
structure CfPrefixStats where
  total : ℕ
  v4 : ℕ
  v6 : ℕ
  avgVisibility : ℤ
  minVisibility : ℕ
  maxVisibility : ℕ
  lowVisibility : List CfPrefixInfo
  visibilityBuckets : List VisibilityBucket
deriving DecidableEq

/-- The `peering` block of the report. -/
structure PeeringInfo where
  sharedIxps : ℕ
  ispIxps : ℕ
  cfIxps : ℕ
  likelyDirectPeering : Bool
  regionalIxp : Option IxpStatus
  allIxps : List IxpStatus
deriving DecidableEq

/-- The finished per-ASN report. -/
structure IspCheckResult where
  asn : ℤ
  name : String
  country : String
  cfPrefixes : CfPrefixStats
  peering : PeeringInfo
  score : ℤ
deriving DecidableEq

/-- The monitored network's ASN. -/
def CLOUDFLARE_AS : ℤ := 13335

/-- Static regional-IXP list of the scoring evolution. -/
def REGIONAL_IXPS : List RegionalIxp :=
  [⟨26, "AMS-IX", "NL"⟩, ⟨59, "BNIX", "BE"⟩, ⟨31, "DE-CIX Frankfurt", "DE"⟩,
   ⟨297, "LU-CIX", "LU"⟩, ⟨359, "France-IX Paris", "FR"⟩]

/-- Static known-ISP list. -/
def ISP_LIST : List IspInfo :=
  [⟨1136, "KPN", "NL"⟩, ⟨9143, "Ziggo (VodafoneZiggo)", "NL"⟩,
   ⟨31615, "Odido (T-Mobile NL)", "NL"⟩, ⟨20857, "TransIP", "NL"⟩,
   ⟨3320, "Deutsche Telekom", "DE"⟩, ⟨3209, "Vodafone Germany", "DE"⟩,
   ⟨8560, "1&1 / IONOS", "DE"⟩, ⟨6805, "Telefonica Germany (O2)", "DE"⟩,
   ⟨5432, "Proximus", "BE"⟩, ⟨6848, "Telenet", "BE"⟩,
   ⟨47377, "Orange Belgium", "BE"⟩, ⟨12392, "VOO", "BE"⟩,
   ⟨6661, "POST Luxembourg", "LU"⟩, ⟨56665, "Tango (Proximus LU)", "LU"⟩,
   ⟨34769, "Orange Luxembourg", "LU"⟩, ⟨3215, "Orange France", "FR"⟩,
   ⟨12322, "Free (Iliad)", "FR"⟩, ⟨15557, "SFR", "FR"⟩,
   ⟨5410, "Bouygues Telecom", "FR"⟩]

/-- The filtered route set: entries originated by the monitored network
(`bgpTable.filter((e) => e.ASN === CLOUDFLARE_AS)`). -/
def cfEntries (table : List BgpEntry) : List BgpEntry :=
  table.filter (fun e => e.ASN == CLOUDFLARE_AS)

/-- Visibility values of the filtered entries (`cfBgpEntries.map((e) => e.Hits)`). -/
def visibilitiesOf (table : List BgpEntry) : List ℕ :=
  (cfEntries table).map (fun e => e.Hits)

/-- `avgVisibility`: mean visibility rounded to nearest, `0` for an empty set. -/
def avgVisibilityOf (table : List BgpEntry) : ℤ :=
  if 0 < (visibilitiesOf table).length then
    jsRound (((visibilitiesOf table).sum : ℚ) / ((visibilitiesOf table).length : ℚ))
  else 0

/-- `minVisibility`: `Math.min(...visibilities)`, `0` for an empty set. -/
def minVisibilityOf (table : List BgpEntry) : ℕ :=
  match visibilitiesOf table with
  | [] => 0
  | h :: t => t.foldl min h

/-- `maxVisibility`: `Math.max(...visibilities)`, `0` for an empty set. -/
def maxVisibilityOf (table : List BgpEntry) : ℕ :=
  match visibilitiesOf table with
  | [] => 0
  | h :: t => t.foldl max h

/-- The dynamic low-visibility threshold `Math.max(1000, avgVisibility * 0.5)`. -/
def visThresholdOf (table : List BgpEntry) : ℚ :=
  max 1000 ((avgVisibilityOf table : ℚ) * (1 / 2))

/-- Annotation of one low-visibility entry (address family by colon presence,
mask by `parseInt` of the text after `/`). -/
def toCfPrefixInfo (e : BgpEntry) : CfPrefixInfo :=
  { pfx := e.CIDR
  , type := if containsChar ':' e.CIDR then AddrType.v6 else AddrType.v4
  , visibility := e.Hits
  , mask :=
      match (splitOnChar '/' e.CIDR.data).get? 1 with
      | some cs => jsParseInt (String.mk cs)
      | none => none }

/-- The low-visibility list: filtered entries below the threshold, sorted
ascending by visibility, truncated to the 50 lowest, annotated.  The JS
`Array.prototype.sort` is stable; `List.insertionSort` by the same key is
the canonical stable ascending sort. -/
def lowVisibilityOf (table : List BgpEntry) : List CfPrefixInfo :=
  ((((cfEntries table).filter
      (fun e => decide ((e.Hits : ℚ) < visThresholdOf table))).insertionSort
      (fun a b => a.Hits ≤ b.Hits)).take 50).map toCfPrefixInfo

/-- Index of the histogram bucket an entry falls into (the source's
`if`/`else if` chain over `Hits`). -/
def bucketIdx (hits : ℕ) : ℕ :=
  if 3000 ≤ hits then 4
  else if 2000 ≤ hits then 3
  else if 1000 ≤ hits then 2
  else if 500 ≤ hits then 1
  else 0

/-- The five bucket lower bounds, in order. -/
def bucketMins : List ℕ := [0, 500, 1000, 2000, 3000]

/-- Increment the count of the bucket at the given index (`buckets[i].count++`). -/
def bucketIncr : List VisibilityBucket → ℕ → List VisibilityBucket
  | [], _ => []
  | b :: bs, 0 => { b with count := b.count + 1 } :: bs
  | b :: bs, n + 1 => b :: bucketIncr bs n

/-- The freshly initialised bucket array. -/
def bucketInit : List VisibilityBucket :=
  [⟨"0-500", 0, 0⟩, ⟨"500-1000", 500, 0⟩, ⟨"1000-2000", 1000, 0⟩,
   ⟨"2000-3000", 2000, 0⟩, ⟨"3000+", 3000, 0⟩]

/-- The histogram loop over a list of entries. -/
def bucketsOf (l : List BgpEntry) : List VisibilityBucket :=
  l.foldl (fun bs e => bucketIncr bs (bucketIdx e.Hits)) bucketInit

/-- `sharedIxps`: `[...ispIxIds].filter((id) => cfIxIds.has(id)).length`. -/
def sharedIxps (ispIxIds cfIxIds : Finset ℕ) : ℕ :=
  (ispIxIds.filter (fun id => id ∈ cfIxIds)).card

/-- `ispInfo?.country ?? "??"` for the queried ASN. -/
def ispCountryOf (targetAsn : ℤ) : String :=
  match ISP_LIST.find? (fun i => i.asn == targetAsn) with
  | some i => i.country
  | none => "??"

/-- `ispInfo?.name ?? `AS${targetAsn}``. -/
def ispNameOf (targetAsn : ℤ) : String :=
  match ISP_LIST.find? (fun i => i.asn == targetAsn) with
  | some i => i.name
  | none => "AS" ++ toString targetAsn

/-- Per-regional-IXP presence statuses. -/
def allIxpStatusesOf (cfIxIds ispIxIds : Finset ℕ) : List IxpStatus :=
  REGIONAL_IXPS.map (fun ixp =>
    { id := ixp.id
    , name := ixp.name
    , country := ixp.country
    , cfPresent := decide (ixp.id ∈ cfIxIds)
    , ispPresent := decide (ixp.id ∈ ispIxIds)
    , peered := decide (ixp.id ∈ cfIxIds) && decide (ixp.id ∈ ispIxIds) })

/-- First regional IXP whose country matches the queried ASN's country. -/
def regionalIxpOf (targetAsn : ℤ) (cfIxIds ispIxIds : Finset ℕ) : Option IxpStatus :=
  (allIxpStatusesOf cfIxIds ispIxIds).find? (fun ix => ix.country == ispCountryOf targetAsn)

/-- `lowVisRatio`: size of the (truncated) low-visibility list over the
filtered count; `0` when the filtered set is empty. -/
def lowVisFracOf (table : List BgpEntry) : ℚ :=
  if 0 < (cfEntries table).length then
    ((lowVisibilityOf table).length : ℚ) / ((cfEntries table).length : ℚ)
  else 0

/-- `healthScore = Math.round((1 - lowVisRatio) * 40)`. -/
def healthScoreOf (table : List BgpEntry) : ℤ :=
  jsRound ((1 - lowVisFracOf table) * 40)

/-- `regionalPeeringScore = regionalIxp?.peered ? 40 : 0`. -/
def regionalScoreOf (targetAsn : ℤ) (cfIxIds ispIxIds : Finset ℕ) : ℕ :=
  match regionalIxpOf targetAsn cfIxIds ispIxIds with
  | some ix => if ix.peered then 40 else 0
  | none => 0

/-- `anyPeeringScore = sharedIxps > 0 ? Math.min(sharedIxps * 10, 20) : 0`. -/
def anyPeeringScoreOf (ispIxIds cfIxIds : Finset ℕ) : ℕ :=
  if 0 < sharedIxps ispIxIds cfIxIds then min (sharedIxps ispIxIds cfIxIds * 10) 20
  else 0

/-- The composite score `Math.min(100, healthScore + regionalPeeringScore +
anyPeeringScore)`. -/
def scoreOf (targetAsn : ℤ) (table : List BgpEntry) (cfIxIds ispIxIds : Finset ℕ) : ℤ :=
  min 100 (healthScoreOf table + (regionalScoreOf targetAsn cfIxIds ispIxIds : ℤ)
    + (anyPeeringScoreOf ispIxIds cfIxIds : ℤ))

/-- The aggregation engine: assembles the `IspCheckResult` from the three
fetched inputs, mirroring the handler body. -/
def buildResult (targetAsn : ℤ) (table : List BgpEntry)
    (cfIxIds ispIxIds : Finset ℕ) (ispIxCount : ℕ) : IspCheckResult :=
  { asn := targetAsn
  , name := ispNameOf targetAsn
  , country := ispCountryOf targetAsn
  , cfPrefixes :=
    { total := (cfEntries table).length
    , v4 := ((cfEntries table).filter (fun e => !containsChar ':' e.CIDR)).length
    , v6 := ((cfEntries table).filter (fun e => containsChar ':' e.CIDR)).length
    , avgVisibility := avgVisibilityOf table
    , minVisibility := minVisibilityOf table
    , maxVisibility := maxVisibilityOf table
    , lowVisibility := lowVisibilityOf table
    , visibilityBuckets := bucketsOf (cfEntries table) }
  , peering :=
    { sharedIxps := sharedIxps ispIxIds cfIxIds
    , ispIxps := ispIxCount
    , cfIxps := cfIxIds.card
    , likelyDirectPeering := decide (0 < sharedIxps ispIxIds cfIxIds)
    , regionalIxp := regionalIxpOf targetAsn cfIxIds ispIxIds
    , allIxps := allIxpStatusesOf cfIxIds ispIxIds }
  , score := scoreOf targetAsn table cfIxIds ispIxIds }

/-- BGP status of one official prefix in the earlier scoring evolution. -/
inductive BgpStatus where
  | announced
  | deaggregated
  | notFound
deriving DecidableEq

/-- The earlier evolution's composite score: `Math.min(100,
Math.round(bgpHealthScore * 0.8 + peeringBonus))` over the per-official-prefix
statuses, with `bgpHealthScore = (announced + deaggregated) / total * 100`. -/
def scoreV1 (statuses : List BgpStatus) (shared : ℕ) : ℤ :=
  min 100 (jsRound (
    (if 0 < statuses.length then
      (((statuses.countP (fun s => s == BgpStatus.announced)
        + statuses.countP (fun s => s == BgpStatus.deaggregated) : ℕ) : ℚ)
        / (statuses.length : ℚ)) * 100
     else 0) * (8 / 10)
    + ((if 0 < shared then min (shared * 5) 20 else 0 : ℕ) : ℚ)))

/-- An HTTP response from the route-table upstream, as seen by the code:
its status and its body text. -/
structure BgpUpstream where
  status : ℕ
  body : String
deriving DecidableEq

/-- A PeeringDB registry entry of the `data` array; `ix_id` is the exchange
identifier, `0` standing for an absent or zero (falsy) `ix_id`, which the
code ignores. -/
structure PdbEntry where
  ix_id : ℕ
deriving DecidableEq

/-- The JSON payload of a PeeringDB response: whether `meta.error` is set
(truthy), and `data` if it is an array (`none` models a non-array `data`). -/
structure PdbPayload where
  metaError : Bool
  data : Option (List PdbEntry)
deriving DecidableEq

/-- What the PeeringDB upstream interaction does on a cache miss: the fetch
or the body-JSON decoding throws, or an HTTP response with a decoded
payload arrives. -/
inductive PdbOutcome where
  | netThrow
  | http (status : ℕ) (payload : PdbPayload)
deriving DecidableEq

/-- The three upstream conditions the spec calls "unavailable, not wrong":
a thrown fetch/decode, a non-success status, a `meta.error` marker, or a
non-array `data`. -/
def pdbUnavailable : PdbOutcome → Bool
  | PdbOutcome.netThrow => true
  | PdbOutcome.http status payload =>
    !okStatus status || payload.metaError || payload.data.isNone

/-- The membership-set accumulation loop: `if (entry.ix_id) ixIds.add(entry.ix_id)`. -/
def collectIxIds (entries : List PdbEntry) : Finset ℕ :=
  entries.foldl (fun s e => if e.ix_id ≠ 0 then insert e.ix_id s else s) ∅

/-- Membership set produced from a PeeringDB outcome on a cache miss:
empty on every "unavailable" condition, the accumulated set otherwise. -/
def pdbResult : PdbOutcome → Finset ℕ
  | PdbOutcome.netThrow => ∅
  | PdbOutcome.http status payload =>
    if okStatus status then
      (if payload.metaError then ∅
       else match payload.data with
       | none => ∅
       | some entries => collectIxIds entries)
    else ∅

/-- `fetchAsnIxIds`: cache-first per-ASN IXP membership fetch.  The result
type is `Except String` so that a raised exception would be observable;
every upstream problem is caught and degrades to the cached value (checked
first) or the empty set, so no path constructs `.error`.  (The source also
persists a freshly fetched non-empty set back to the cache; the write is a
side effect that does not alter the returned value and is not modelled.) -/
def fetchAsnIxIds (cache : Option (List ℕ)) (outcome : PdbOutcome) :
    Except String (Finset ℕ) :=
  match cache with
  | some v => Except.ok v.toFinset
  | none => Except.ok (pdbResult outcome)

/-- The per-line parse loop of `fetchBgpTable`: trim each line, skip blank
lines, `JSON.parse` the rest inside `try`/`catch`, keeping successes in
order.  The parse oracle returns `none` where `JSON.parse` would throw. -/
def parseBgpLines (p : String → Option BgpEntry) : List (List Char) → List BgpEntry
  | [] => []
  | line :: rest =>
    match trimChars line with
    | [] => parseBgpLines p rest
    | t =>
      match p (String.mk t) with
      | some e => e :: parseBgpLines p rest
      | none => parseBgpLines p rest

/-- `fetchBgpTable` body handling: split the payload on newlines and run the
per-line loop. -/
def parseBgpText (p : String → Option BgpEntry) (body : String) : List BgpEntry :=
  parseBgpLines p (splitOnChar '\n' body.data)

/-- All inputs a single request can observe: the three cache layers and the
behaviour of the two upstreams (`jsonOf` is the `JSON.parse` oracle for
route-table lines). -/
structure World where
  resultCache : Option IspCheckResult
  bgpCache : Option (List BgpEntry)
  bgpResp : BgpUpstream
  jsonOf : String → Option BgpEntry
  cfCache : Option (List ℕ)
  cfOutcome : PdbOutcome
  ispCache : Option (List ℕ)
  ispOutcome : PdbOutcome

/-- `fetchBgpTable`: cache-first; on a miss a non-success status is a hard
failure carrying the upstream status and body, with no fallback.  The second
component counts HTTP requests issued (`1` on a cache miss). -/
def fetchBgpTable (w : World) : Except String (List BgpEntry) × ℕ :=
  match w.bgpCache with
  | some t => (Except.ok t, 0)
  | none =>
    if okStatus w.bgpResp.status then
      (Except.ok (parseBgpText w.jsonOf w.bgpResp.body), 1)
    else
      (Except.error ("bgp.tools returned " ++ toString w.bgpResp.status
        ++ ": " ++ w.bgpResp.body), 1)

/-- `fetchCloudflareIxIds`: cache-first; all upstream problems degrade to
the empty set.  The second component counts HTTP requests issued. -/
def fetchCloudflareIxIds (w : World) : Finset ℕ × ℕ :=
  match w.cfCache with
  | some v => (v.toFinset, 0)
  | none => (pdbResult w.cfOutcome, 1)

/-- `fetchIspIxData`: cache-first; returns the membership set plus the
reported `ixCount` (the cached array's length on a hit, the set's size on a
fresh fetch, `0` on degradation).  The second component counts HTTP
requests issued. -/
def fetchIspIxData (w : World) : (Finset ℕ × ℕ) × ℕ :=
  match w.ispCache with
  | some v => ((v.toFinset, v.length), 0)
  | none => ((pdbResult w.ispOutcome, (pdbResult w.ispOutcome).card), 1)

/-- The structured response envelope of the handler, together with which
fields the branches set.  Timing fields are not modelled. -/
structure HandlerResponse where
  status : ℕ
  success : Bool
  error : Option String
  result : Option IspCheckResult
  isps : Option (List IspInfo)
  cached : Bool
deriving DecidableEq

/-- The `GET` handler: ISP list when no ASN parameter is given; a `400`
envelope when the parameter does not `parseInt`; otherwise report-cache
lookup, then the three fetches (issued together by `Promise.all`), with a
route-table failure caught at the request boundary as a `500` envelope.
The second component is the number of upstream HTTP requests issued. -/
def handlerGET (asnParam : Option String) (w : World) : HandlerResponse × ℕ :=
  match asnParam with
  | none =>
    ({ status := 200, success := true, error := none, result := none
     , isps := some ISP_LIST, cached := false }, 0)
  | some s =>
    match jsParseInt s with
    | none =>
      ({ status := 400, success := false, error := some "Invalid ASN"
       , result := none, isps := none, cached := false }, 0)
    | some targetAsn =>
      match w.resultCache with
      | some r =>
        ({ status := 200, success := true, error := none, result := some r
         , isps := none, cached := true }, 0)
      | none =>
        match fetchBgpTable w, fetchCloudflareIxIds w, fetchIspIxData w with
        | bgp, cf, isp =>
          match bgp.1 with
          | Except.error msg =>
            ({ status := 500, success := false, error := some msg
             , result := none, isps := none, cached := false }, bgp.2 + cf.2 + isp.2)
          | Except.ok table =>
            ({ status := 200, success := true, error := none
             , result := some (buildResult targetAsn table cf.1 isp.1.1 isp.1.2)
             , isps := none, cached := false }, bgp.2 + cf.2 + isp.2)

lemma jsRound_eq (q : ℚ) : jsRound q = ⌊q + 1 / 2⌋ := by
  rw [jsRound, Rat.floor_def' (q + 1 / 2), ← Rat.floor_def]

lemma jsRound_nonneg (q : ℚ) (h : 0 ≤ q) : 0 ≤ jsRound q := by
  rw [jsRound_eq]
  exact Int.floor_nonneg.mpr (by linarith)

lemma jsRound_le_int (q : ℚ) (n : ℤ) (h : q ≤ (n : ℚ)) : jsRound q ≤ n := by
  rw [jsRound_eq]
  have : (⌊q + 1 / 2⌋ : ℤ) < n + 1 := by
    rw [Int.floor_lt]
    push_cast
    linarith
  omega

lemma jsRound_int (n : ℤ) : jsRound (n : ℚ) = n := by
  rw [jsRound_eq, Int.floor_eq_iff]
  constructor
  · linarith
  · linarith

lemma lowVis_length (table : List BgpEntry) :
    (lowVisibilityOf table).length
      = min 50 ((cfEntries table).countP
          (fun e => decide ((e.Hits : ℚ) < visThresholdOf table))) := by
  unfold lowVisibilityOf
  rw [List.length_map, List.length_take,
    (List.perm_insertionSort _ _).length_eq, List.countP_eq_length_filter]

lemma lowVisFrac_bounds (table : List BgpEntry) :
    0 ≤ lowVisFracOf table ∧ lowVisFracOf table ≤ 1 := by
  unfold lowVisFracOf
  by_cases h : 0 < (cfEntries table).length
  · rw [if_pos h]
    have hlen : (lowVisibilityOf table).length ≤ (cfEntries table).length := by
      rw [lowVis_length]
      exact le_trans (min_le_right _ _) (List.countP_le_length _)
    constructor
    · positivity
    · rw [div_le_one (by exact_mod_cast h)]
      exact_mod_cast hlen
  · rw [if_neg h]
    norm_num

lemma healthScore_bounds (table : List BgpEntry) :
    0 ≤ healthScoreOf table ∧ healthScoreOf table ≤ 40 := by
  obtain ⟨h0, h1⟩ := lowVisFrac_bounds table
  unfold healthScoreOf
  constructor
  · exact jsRound_nonneg _ (by nlinarith)
  · exact jsRound_le_int _ 40 (by push_cast; nlinarith)

lemma regionalScore_le (asn : ℤ) (cf isp : Finset ℕ) :
    regionalScoreOf asn cf isp ≤ 40 := by
  unfold regionalScoreOf
  rcases regionalIxpOf asn cf isp with _ | ix
  · simp
  · simp only []
    split <;> omega

lemma anyPeeringScore_le (isp cf : Finset ℕ) : anyPeeringScoreOf isp cf ≤ 20 := by
  unfold anyPeeringScoreOf
  split
  · exact min_le_right _ _
  · omega

lemma bucketIdx_lt (hits : ℕ) : bucketIdx hits < 5 := by
  unfold bucketIdx
  split <;> try omega
  split <;> try omega
  split <;> try omega
  split <;> omega

lemma bucketsOf_foldl (l : List BgpEntry) : ∀ c0 c1 c2 c3 c4 : ℕ,
    l.foldl (fun bs e => bucketIncr bs (bucketIdx e.Hits))
      [⟨"0-500", 0, c0⟩, ⟨"500-1000", 500, c1⟩, ⟨"1000-2000", 1000, c2⟩,
       ⟨"2000-3000", 2000, c3⟩, ⟨"3000+", 3000, c4⟩]
    = [⟨"0-500", 0, c0 + l.countP (fun e => bucketIdx e.Hits == 0)⟩,
       ⟨"500-1000", 500, c1 + l.countP (fun e => bucketIdx e.Hits == 1)⟩,
       ⟨"1000-2000", 1000, c2 + l.countP (fun e => bucketIdx e.Hits == 2)⟩,
       ⟨"2000-3000", 2000, c3 + l.countP (fun e => bucketIdx e.Hits == 3)⟩,
       ⟨"3000+", 3000, c4 + l.countP (fun e => bucketIdx e.Hits == 4)⟩] := by
  induction l with
  | nil => simp
  | cons e t ih =>
    intro c0 c1 c2 c3 c4
    have h5 := bucketIdx_lt e.Hits
    rcases show bucketIdx e.Hits = 0 ∨ bucketIdx e.Hits = 1 ∨ bucketIdx e.Hits = 2
        ∨ bucketIdx e.Hits = 3 ∨ bucketIdx e.Hits = 4 by omega with
      hid | hid | hid | hid | hid <;>
    · simp only [List.foldl_cons, hid, bucketIncr, List.countP_cons, ih]
      simp [VisibilityBucket.mk.injEq]
      omega

lemma bucketsOf_counts (l : List BgpEntry) :
    bucketsOf l
    = [⟨"0-500", 0, l.countP (fun e => bucketIdx e.Hits == 0)⟩,
       ⟨"500-1000", 500, l.countP (fun e => bucketIdx e.Hits == 1)⟩,
       ⟨"1000-2000", 1000, l.countP (fun e => bucketIdx e.Hits == 2)⟩,
       ⟨"2000-3000", 2000, l.countP (fun e => bucketIdx e.Hits == 3)⟩,
       ⟨"3000+", 3000, l.countP (fun e => bucketIdx e.Hits == 4)⟩] := by
  have h := bucketsOf_foldl l 0 0 0 0 0
  simpa [bucketsOf, bucketInit] using h

lemma bucket_countP_sum (l : List BgpEntry) :
    l.countP (fun e => bucketIdx e.Hits == 0) + l.countP (fun e => bucketIdx e.Hits == 1)
    + l.countP (fun e => bucketIdx e.Hits == 2) + l.countP (fun e => bucketIdx e.Hits == 3)
    + l.countP (fun e => bucketIdx e.Hits == 4) = l.length := by
  induction l with
  | nil => simp
  | cons e t ih =>
    have h5 := bucketIdx_lt e.Hits
    rcases show bucketIdx e.Hits = 0 ∨ bucketIdx e.Hits = 1 ∨ bucketIdx e.Hits = 2
        ∨ bucketIdx e.Hits = 3 ∨ bucketIdx e.Hits = 4 by omega with
      hid | hid | hid | hid | hid <;>
    · simp only [List.countP_cons, hid, List.length_cons]
      simp
      omega

lemma bucketIdx_spec (h : ℕ) :
    bucketMins.getD (bucketIdx h) 0 ≤ h
    ∧ ∀ j, j < 5 → bucketMins.getD j 0 ≤ h → j ≤ bucketIdx h := by
  constructor
  · unfold bucketIdx bucketMins
    split <;> try simp_all
    split <;> try simp_all
    split <;> try simp_all
    split <;> simp_all
  · intro j hj hle
    interval_cases j <;> simp_all [bucketMins] <;> unfold bucketIdx <;>
      split <;> try omega
    all_goals (split <;> try omega)
    all_goals (split <;> try omega)

lemma foldl_min_mem (h : ℕ) (t : List ℕ) : t.foldl min h ∈ h :: t := by
  induction t generalizing h with
  | nil => simp
  | cons a t ih =>
    simp only [List.foldl_cons]
    rcases List.mem_cons.mp (ih (min h a)) with hm | hm
    · rcases min_cases h a with ⟨he, _⟩ | ⟨he, _⟩
      · rw [hm, he]
        exact List.mem_cons_self _ _
      · rw [hm, he]
        exact List.mem_cons_of_mem _ (List.mem_cons_self _ _)
    · exact List.mem_cons_of_mem _ (List.mem_cons_of_mem _ hm)

lemma foldl_min_le (h : ℕ) (t : List ℕ) : ∀ v ∈ h :: t, t.foldl min h ≤ v := by
  induction t generalizing h with
  | nil => simp
  | cons a t ih =>
    intro v hv
    have hha : t.foldl min (min h a) ≤ min h a := ih (min h a) _ (List.mem_cons_self _ _)
    rcases List.mem_cons.mp hv with rfl | hv
    · simp only [List.foldl_cons]
      exact le_trans hha (min_le_left _ _)
    · rcases List.mem_cons.mp hv with rfl | hv
      · simp only [List.foldl_cons]
        exact le_trans hha (min_le_right _ _)
      · simp only [List.foldl_cons]
        exact ih (min h a) v (List.mem_cons_of_mem _ hv)

lemma foldl_max_mem (h : ℕ) (t : List ℕ) : t.foldl max h ∈ h :: t := by
  induction t generalizing h with
  | nil => simp
  | cons a t ih =>
    simp only [List.foldl_cons]
    rcases List.mem_cons.mp (ih (max h a)) with hm | hm
    · rcases max_cases h a with ⟨he, _⟩ | ⟨he, _⟩
      · rw [hm, he]
        exact List.mem_cons_self _ _
      · rw [hm, he]
        exact List.mem_cons_of_mem _ (List.mem_cons_self _ _)
    · exact List.mem_cons_of_mem _ (List.mem_cons_of_mem _ hm)

lemma foldl_le_max (h : ℕ) (t : List ℕ) : ∀ v ∈ h :: t, v ≤ t.foldl max h := by
  induction t generalizing h with
  | nil => simp
  | cons a t ih =>
    intro v hv
    have hha : max h a ≤ t.foldl max (max h a) := by
      have := ih (max h a) (max h a) (List.mem_cons_self _ _)
      exact this
    rcases List.mem_cons.mp hv with rfl | hv
    · simp only [List.foldl_cons]
      exact le_trans (le_max_left _ _) hha
    · rcases List.mem_cons.mp hv with rfl | hv
      · simp only [List.foldl_cons]
        exact le_trans (le_max_right _ _) hha
      · simp only [List.foldl_cons]
        exact ih (max h a) v (List.mem_cons_of_mem _ hv)

lemma countP_pair_le_length (l : List BgpStatus) :
    l.countP (fun s => s == BgpStatus.announced)
    + l.countP (fun s => s == BgpStatus.deaggregated) ≤ l.length := by
  induction l with
  | nil => simp
  | cons a t ih =>
    simp only [List.countP_cons, List.length_cons]
    rcases a <;> simp <;> omega

/-- Claim C1: for every route table, every queried-ASN IXP set, every
target-network IXP set (and every queried ASN and reported count) — including
empty IXP sets and an empty filtered route set — the composite score of the
report built by the aggregation engine lies within `[0, 100]`; the same holds
for the earlier evolution's composite score over the official-prefix statuses.
The score is an integer by construction: it is `ℤ`-valued, produced by
`Math.round` and `Math.min` over integers. -/
theorem score_in_range (asn : ℤ) (table : List BgpEntry) (cfIxIds ispIxIds : Finset ℕ)
    (ispIxCount : ℕ) (statuses : List BgpStatus) (shared : ℕ) :
    (0 ≤ (buildResult asn table cfIxIds ispIxIds ispIxCount).score
      ∧ (buildResult asn table cfIxIds ispIxIds ispIxCount).score ≤ 100)
    ∧ (0 ≤ scoreV1 statuses shared ∧ scoreV1 statuses shared ≤ 100) := by
  refine ⟨⟨?_, ?_⟩, ?_, ?_⟩
  · show 0 ≤ scoreOf asn table cfIxIds ispIxIds
    unfold scoreOf
    refine le_min (by norm_num) ?_
    have hh := (healthScore_bounds table).1
    have hr : (0 : ℤ) ≤ (regionalScoreOf asn cfIxIds ispIxIds : ℤ) := Int.natCast_nonneg _
    have ha : (0 : ℤ) ≤ (anyPeeringScoreOf ispIxIds cfIxIds : ℤ) := Int.natCast_nonneg _
    linarith
  · show scoreOf asn table cfIxIds ispIxIds ≤ 100
    exact min_le_left _ _
  · unfold scoreV1
    refine le_min (by norm_num) (jsRound_nonneg _ ?_)
    have h1 : (0 : ℚ) ≤
        (if 0 < statuses.length then
          (((statuses.countP (fun s => s == BgpStatus.announced)
            + statuses.countP (fun s => s == BgpStatus.deaggregated) : ℕ) : ℚ)
            / (statuses.length : ℚ)) * 100
         else 0) := by
      split
      · positivity
      · norm_num
    have h2 : (0 : ℚ) ≤ ((if 0 < shared then min (shared * 5) 20 else 0 : ℕ) : ℚ) := by
      positivity
    nlinarith
  · unfold scoreV1
    exact min_le_left _ _

/-- Claim C2: for every route table the histogram over the filtered set has
exactly five buckets with lower bounds 0, 500, 1000, 2000, 3000; each filtered
entry is counted in exactly one bucket, the one with the highest lower bound
its visibility meets or exceeds; and for a non-empty filtered set the five
counts sum exactly to the filtered count. -/
theorem histogram_buckets (table : List BgpEntry) :
    ((bucketsOf (cfEntries table)).map VisibilityBucket.min = bucketMins)
    ∧ ((bucketsOf (cfEntries table)).map VisibilityBucket.count
        = [(cfEntries table).countP (fun e => bucketIdx e.Hits == 0),
           (cfEntries table).countP (fun e => bucketIdx e.Hits == 1),
           (cfEntries table).countP (fun e => bucketIdx e.Hits == 2),
           (cfEntries table).countP (fun e => bucketIdx e.Hits == 3),
           (cfEntries table).countP (fun e => bucketIdx e.Hits == 4)])
    ∧ (∀ e ∈ cfEntries table,
        bucketMins.getD (bucketIdx e.Hits) 0 ≤ e.Hits
        ∧ ∀ j, j < 5 → bucketMins.getD j 0 ≤ e.Hits → j ≤ bucketIdx e.Hits)
    ∧ (cfEntries table ≠ [] →
        ((bucketsOf (cfEntries table)).map VisibilityBucket.count).sum
          = (cfEntries table).length) := by
  refine ⟨?_, ?_, ?_, ?_⟩
  · rw [bucketsOf_counts]
    simp [bucketMins]
  · rw [bucketsOf_counts]
    simp
  · intro e _
    exact bucketIdx_spec e.Hits
  · intro _
    rw [bucketsOf_counts]
    have h := bucket_countP_sum (cfEntries table)
    simp only [List.map_cons, List.map_nil, List.sum_cons, List.sum_nil]
    omega

/-- Witness for C2 at a concrete one-entry table (non-empty filtered set). -/
theorem histogram_buckets_witness :
    ((bucketsOf (cfEntries [⟨"1.1.1.0/24", 13335, 600⟩])).map VisibilityBucket.count).sum
      = (cfEntries [⟨"1.1.1.0/24", 13335, 600⟩]).length :=
  (histogram_buckets [⟨"1.1.1.0/24", 13335, 600⟩]).2.2.2 (by decide)

/-- Claim C6: `sharedIxpCount` is the size of the intersection of the queried
ASN's and the target network's IXP sets, hence bounded by the minimum of the
two reported set sizes, also as fields of the built report. -/
theorem shared_ixps_intersection (ispIxIds cfIxIds : Finset ℕ) (asn : ℤ)
    (table : List BgpEntry) :
    sharedIxps ispIxIds cfIxIds = (ispIxIds ∩ cfIxIds).card
    ∧ sharedIxps ispIxIds cfIxIds ≤ min ispIxIds.card cfIxIds.card
    ∧ (buildResult asn table cfIxIds ispIxIds ispIxIds.card).peering.sharedIxps
        ≤ min (buildResult asn table cfIxIds ispIxIds ispIxIds.card).peering.ispIxps
            (buildResult asn table cfIxIds ispIxIds ispIxIds.card).peering.cfIxps := by
  have h1 : sharedIxps ispIxIds cfIxIds = (ispIxIds ∩ cfIxIds).card := by
    unfold sharedIxps
    rw [Finset.filter_mem_eq_inter]
  have h2 : sharedIxps ispIxIds cfIxIds ≤ min ispIxIds.card cfIxIds.card := by
    rw [h1]
    exact le_min (Finset.card_le_card Finset.inter_subset_left)
      (Finset.card_le_card Finset.inter_subset_right)
  exact ⟨h1, h2, by simpa [buildResult] using h2⟩

/-- Claim C10: the report's `likelyDirectPeering` flag is true exactly when
`sharedIxpCount > 0`, i.e. exactly when the queried ASN's and the target
network's IXP sets intersect. -/
theorem likely_direct_peering_iff (asn : ℤ) (table : List BgpEntry)
    (cfIxIds ispIxIds : Finset ℕ) (ispIxCount : ℕ) :
    ((buildResult asn table cfIxIds ispIxIds ispIxCount).peering.likelyDirectPeering
        = true ↔ 0 < sharedIxps ispIxIds cfIxIds)
    ∧ ((buildResult asn table cfIxIds ispIxIds ispIxCount).peering.likelyDirectPeering
        = true ↔ (ispIxIds ∩ cfIxIds).Nonempty) := by
  have h1 : sharedIxps ispIxIds cfIxIds = (ispIxIds ∩ cfIxIds).card := by
    unfold sharedIxps
    rw [Finset.filter_mem_eq_inter]
  constructor
  · simp [buildResult]
  · simp [buildResult, h1, Finset.card_pos]

lemma jsRound_eq_int (q : ℚ) (n : ℤ) (h1 : (n : ℚ) ≤ q + 1 / 2)
    (h2 : q + 1 / 2 < (n : ℚ) + 1) : jsRound q = n := by
  rw [jsRound_eq, Int.floor_eq_iff]
  exact ⟨h1, by linarith⟩

/-- Claim C3 (amended): the health component is
`round((1 - min(50, lowVisibilityCount) / totalFilteredCount) * 40)` for a
non-empty filtered set — the numerator is the length of the truncated
low-visibility list, so it is capped at 50 — and `40` (not `0`) when the
filtered set is empty. -/
theorem health_component_amended (table : List BgpEntry) :
    healthScoreOf table
      = if cfEntries table = [] then 40
        else jsRound ((1 - ((min 50 ((cfEntries table).countP
            (fun e => decide ((e.Hits : ℚ) < visThresholdOf table))) : ℕ) : ℚ)
            / ((cfEntries table).length : ℚ)) * 40) := by
  by_cases h : cfEntries table = []
  · rw [if_pos h]
    unfold healthScoreOf lowVisFracOf
    rw [h]
    simp only [List.length_nil, lt_self_iff_false, if_false]
    apply jsRound_eq_int <;> norm_num
  · rw [if_neg h]
    have hp : 0 < (cfEntries table).length := List.length_pos.mpr h
    unfold healthScoreOf lowVisFracOf
    rw [if_pos hp, lowVis_length]

/-- The 51-entry route table of the C3 counterexample: 51 monitored-network
routes with visibility 0. -/
def lowEntry : BgpEntry := ⟨"1.2.3.0/24", 13335, 0⟩

/-- 51 identical low-visibility entries. -/
def tbl51 : List BgpEntry := List.replicate 51 lowEntry

/-- Claim C3 counterexample: on the empty route table the code's health
component is `40`, while the claim requires `0`; on a table of 51 filtered
entries of visibility 0, all 51 of 51 filtered entries are below the
threshold, so the claim's formula `round((1 - 51/51) * 40)` gives `0`, but
the code (whose numerator is the truncated list's length, 50) gives `1`. -/
theorem health_component_claim_false :
    healthScoreOf [] = 40
    ∧ healthScoreOf tbl51 = 1
    ∧ (cfEntries tbl51).countP
        (fun e => decide ((e.Hits : ℚ) < visThresholdOf tbl51)) = 51
    ∧ (cfEntries tbl51).length = 51
    ∧ jsRound ((1 - (51 : ℚ) / 51) * 40) = 0 := by
  have hvis : visibilitiesOf tbl51 = List.replicate 51 0 := by decide
  have havg : avgVisibilityOf tbl51 = 0 := by
    unfold avgVisibilityOf
    rw [hvis]
    rw [if_pos (by norm_num)]
    have hs : (List.replicate 51 (0 : ℕ)).sum = 0 := by decide
    have hl : (List.replicate 51 (0 : ℕ)).length = 51 := by decide
    rw [hs, hl]
    apply jsRound_eq_int <;> norm_num
  have hthr : visThresholdOf tbl51 = (1000 : ℚ) := by
    unfold visThresholdOf
    rw [havg]
    norm_num
  have hcnt : (cfEntries tbl51).countP
      (fun e => decide ((e.Hits : ℚ) < (1000 : ℚ))) = 51 := by decide
  have hlen : (cfEntries tbl51).length = 51 := by decide
  refine ⟨?_, ?_, ?_, hlen, ?_⟩
  · unfold healthScoreOf lowVisFracOf
    rw [show cfEntries [] = [] from rfl]
    simp only [List.length_nil, lt_self_iff_false, if_false]
    apply jsRound_eq_int <;> norm_num
  · unfold healthScoreOf lowVisFracOf
    rw [if_pos (by rw [hlen]; norm_num), lowVis_length]
    simp only [hthr]
    rw [hcnt, hlen]
    apply jsRound_eq_int <;> norm_num
  · simp only [hthr]
    exact hcnt
  · apply jsRound_eq_int <;> norm_num

/-- The three-entry route table of the spec's statistics scenario:
monitored-network routes with visibilities 2500, 100 and 4000. -/
def scenarioTable : List BgpEntry :=
  [⟨"104.16.0.0/13", 13335, 2500⟩, ⟨"1.1.1.0/24", 13335, 100⟩,
   ⟨"2606:4700::/32", 13335, 4000⟩]

/-- Claim C7: the report's visibility statistics are the rounded arithmetic
mean, the minimum and the maximum of the filtered entries' visibilities, all
zero for an empty filtered set; and on the scenario table with visibilities
2500, 100, 4000 the statistics are 2200 / 100 / 4000, the threshold is 1100,
the low-visibility set is exactly the visibility-100 entry, and the health
component is 27. -/
theorem visibility_stats (asn : ℤ) (table : List BgpEntry) (cfIxIds ispIxIds : Finset ℕ)
    (ispIxCount : ℕ) :
    (visibilitiesOf table = [] →
      (buildResult asn table cfIxIds ispIxIds ispIxCount).cfPrefixes.avgVisibility = 0
      ∧ (buildResult asn table cfIxIds ispIxIds ispIxCount).cfPrefixes.minVisibility = 0
      ∧ (buildResult asn table cfIxIds ispIxIds ispIxCount).cfPrefixes.maxVisibility = 0)
    ∧ (visibilitiesOf table ≠ [] →
      (buildResult asn table cfIxIds ispIxIds ispIxCount).cfPrefixes.avgVisibility
        = jsRound (((visibilitiesOf table).sum : ℚ) / ((visibilitiesOf table).length : ℚ))
      ∧ (buildResult asn table cfIxIds ispIxIds ispIxCount).cfPrefixes.minVisibility
          ∈ visibilitiesOf table
      ∧ (∀ v ∈ visibilitiesOf table,
          (buildResult asn table cfIxIds ispIxIds ispIxCount).cfPrefixes.minVisibility ≤ v)
      ∧ (buildResult asn table cfIxIds ispIxIds ispIxCount).cfPrefixes.maxVisibility
          ∈ visibilitiesOf table
      ∧ (∀ v ∈ visibilitiesOf table,
          v ≤ (buildResult asn table cfIxIds ispIxIds ispIxCount).cfPrefixes.maxVisibility))
    ∧ (avgVisibilityOf scenarioTable = 2200
      ∧ minVisibilityOf scenarioTable = 100
      ∧ maxVisibilityOf scenarioTable = 4000
      ∧ visThresholdOf scenarioTable = (1100 : ℚ)
      ∧ lowVisibilityOf scenarioTable = [⟨"1.1.1.0/24", AddrType.v4, 100, some 24⟩]
      ∧ healthScoreOf scenarioTable = 27) := by
  refine ⟨?_, ?_, ?_⟩
  · intro h
    refine ⟨?_, ?_, ?_⟩ <;>
      simp [buildResult, avgVisibilityOf, minVisibilityOf, maxVisibilityOf, h]
  · intro h
    rcases hv : visibilitiesOf table with _ | ⟨h0, t⟩
    · exact absurd hv h
    refine ⟨?_, ?_, ?_, ?_, ?_⟩
    · show avgVisibilityOf table = _
      unfold avgVisibilityOf
      rw [if_pos (by rw [hv]; simp), hv]
    · show minVisibilityOf table ∈ _
      unfold minVisibilityOf
      rw [hv]
      exact foldl_min_mem h0 t
    · intro v hvmem
      show minVisibilityOf table ≤ v
      unfold minVisibilityOf
      rw [hv]
      exact foldl_min_le h0 t v hvmem
    · show maxVisibilityOf table ∈ _
      unfold maxVisibilityOf
      rw [hv]
      exact foldl_max_mem h0 t
    · intro v hvmem
      show v ≤ maxVisibilityOf table
      unfold maxVisibilityOf
      rw [hv]
      exact foldl_le_max h0 t v hvmem
  · have hvis : visibilitiesOf scenarioTable = [2500, 100, 4000] := by decide
    have havg : avgVisibilityOf scenarioTable = 2200 := by
      unfold avgVisibilityOf
      rw [hvis]
      rw [if_pos (by norm_num)]
      rw [show ([2500, 100, 4000] : List ℕ).sum = 6600 from by decide]
      rw [show ([2500, 100, 4000] : List ℕ).length = 3 from by decide]
      apply jsRound_eq_int <;> norm_num
    have hthr : visThresholdOf scenarioTable = (1100 : ℚ) := by
      unfold visThresholdOf
      rw [havg]
      norm_num
    have hlow : lowVisibilityOf scenarioTable
        = [⟨"1.1.1.0/24", AddrType.v4, 100, some 24⟩] := by
      unfold lowVisibilityOf
      simp only [hthr]
      decide
    refine ⟨havg, by decide, by decide, hthr, hlow, ?_⟩
    unfold healthScoreOf lowVisFracOf
    rw [if_pos (by rw [show (cfEntries scenarioTable).length = 3 from by decide]; norm_num)]
    rw [show (lowVisibilityOf scenarioTable).length = 1 from by rw [hlow]; rfl]
    rw [show (cfEntries scenarioTable).length = 3 from by decide]
    apply jsRound_eq_int <;> norm_num

/-- Witness for C7 at the scenario table (non-empty filtered set). -/
theorem visibility_stats_witness :
    (buildResult 1136 scenarioTable ∅ ∅ 0).cfPrefixes.minVisibility
      ∈ visibilitiesOf scenarioTable :=
  ((visibility_stats 1136 scenarioTable ∅ ∅ 0).2.1 (by decide)).2.1

lemma pdbResult_unavailable (o : PdbOutcome) (h : pdbUnavailable o = true) :
    pdbResult o = ∅ := by
  cases o with
  | netThrow => rfl
  | http status payload =>
    simp only [pdbUnavailable] at h
    simp only [pdbResult]
    cases hok : okStatus status with
    | false => simp [hok]
    | true =>
      rw [hok] at h
      simp only [Bool.not_true, Bool.false_or] at h
      cases hm : payload.metaError with
      | true => simp [hok, hm]
      | false =>
        rw [hm] at h
        simp only [Bool.false_or] at h
        cases hdd : payload.data with
        | none => simp [hok, hm]
        | some entries =>
          rw [hdd] at h
          simp at h

/-- Claim C4: the IXP membership fetch never fails outward: on any
"unavailable" upstream condition (non-success status, `meta.error` marker,
non-array payload, or a thrown fetch/decode) it returns the last cached set
when one exists and the empty set otherwise; in particular, with HTTP 429 and
no cached value the set is empty, the handler still produces the report, and
its `sharedIxpCount` is 0. -/
theorem ixp_fetch_never_fails (cache : Option (List ℕ)) (o : PdbOutcome) (w : World)
    (s : String) (asn : ℤ) (table : List BgpEntry) (payload : PdbPayload)
    (hbad : pdbUnavailable o = true) (hs : jsParseInt s = some asn)
    (hrc : w.resultCache = none) (hbgp : w.bgpCache = some table)
    (hic : w.ispCache = none) (hio : w.ispOutcome = PdbOutcome.http 429 payload) :
    fetchAsnIxIds cache o
      = Except.ok ((cache.map List.toFinset).getD (∅ : Finset ℕ))
    ∧ (handlerGET (some s) w).1
        = { status := 200, success := true, error := none
          , result := some (buildResult asn table (fetchCloudflareIxIds w).1 ∅ 0)
          , isps := none, cached := false }
    ∧ (buildResult asn table (fetchCloudflareIxIds w).1 ∅ 0).peering.sharedIxps = 0 := by
  have hres := pdbResult_unavailable o hbad
  have hbt : fetchBgpTable w = (Except.ok table, 0) := by
    unfold fetchBgpTable
    rw [hbgp]
  have hisp : fetchIspIxData w = ((∅, 0), 1) := by
    unfold fetchIspIxData
    rw [hic, hio]
    simp [pdbResult, okStatus]
  refine ⟨?_, ?_, ?_⟩
  · cases cache with
    | none => simp [fetchAsnIxIds, hres]
    | some v => simp [fetchAsnIxIds]
  · simp [handlerGET, hs, hrc, hbt, hisp]
  · simp [buildResult, sharedIxps]

/-- World of the C4 witness: warm report-free caches, route table cached
empty, PeeringDB answering 429 with no cached membership for the ASN. -/
def wDegraded : World :=
  { resultCache := none, bgpCache := some [], bgpResp := ⟨200, ""⟩
  , jsonOf := fun _ => none, cfCache := some [], cfOutcome := PdbOutcome.netThrow
  , ispCache := none, ispOutcome := PdbOutcome.http 429 ⟨false, none⟩ }

/-- Witness for C4 at a concrete world: 429, no cache, report produced. -/
theorem ixp_fetch_never_fails_witness :
    fetchAsnIxIds none PdbOutcome.netThrow = Except.ok (∅ : Finset ℕ)
    ∧ (handlerGET (some ("1136")) wDegraded).1.status = 200
    ∧ (handlerGET (some ("1136")) wDegraded).1.success = true := by
  have h := ixp_fetch_never_fails none PdbOutcome.netThrow wDegraded ("1136") 1136 []
    ⟨false, none⟩ rfl (by decide) rfl rfl rfl rfl
  exact ⟨h.1, by rw [h.2.1], by rw [h.2.1]⟩

/-- Claim C5: on a route-table cache miss, a non-success upstream status makes
`fetchBgpTable` fail with an error carrying the upstream status and body, with
no fallback value, and the whole request is surfaced as a structured `500`
failure envelope. -/
theorem bgp_fetch_hard_failure (w : World) (s : String) (asn : ℤ)
    (hs : jsParseInt s = some asn) (hrc : w.resultCache = none)
    (hbc : w.bgpCache = none) (hnok : okStatus w.bgpResp.status = false) :
    (fetchBgpTable w).1
      = Except.error ("bgp.tools returned " ++ toString w.bgpResp.status
          ++ ": " ++ w.bgpResp.body)
    ∧ (handlerGET (some s) w).1
        = { status := 500, success := false
          , error := some ("bgp.tools returned " ++ toString w.bgpResp.status
              ++ ": " ++ w.bgpResp.body)
          , result := none, isps := none, cached := false } := by
  have h1 : fetchBgpTable w
      = (Except.error ("bgp.tools returned " ++ toString w.bgpResp.status
          ++ ": " ++ w.bgpResp.body), 1) := by
    unfold fetchBgpTable
    rw [hbc]
    simp [hnok]
  exact ⟨by rw [h1], by simp [handlerGET, hs, hrc, h1]⟩

/-- World of the C5 and C9 witnesses: cold route-table cache and a 503 from
the route-table upstream. -/
def wBgpDown : World :=
  { resultCache := none, bgpCache := none, bgpResp := ⟨503, "service unavailable"⟩
  , jsonOf := fun _ => none, cfCache := some [], cfOutcome := PdbOutcome.netThrow
  , ispCache := some [], ispOutcome := PdbOutcome.netThrow }

/-- Witness for C5 at a concrete world with upstream status 503. -/
theorem bgp_fetch_hard_failure_witness :
    (handlerGET (some ("1136")) wBgpDown).1.status = 500
    ∧ (fetchBgpTable wBgpDown).1
        = Except.error ("bgp.tools returned 503: service unavailable") := by
  have h := bgp_fetch_hard_failure wBgpDown ("1136") 1136 (by decide) rfl rfl (by decide)
  refine ⟨by rw [h.2], ?_⟩
  rw [h.1]
  rfl

lemma length_filterMap_eq_countP {α β : Type} (f : α → Option β) (l : List α) :
    (l.filterMap f).length = l.countP (fun a => (f a).isSome) := by
  induction l with
  | nil => simp
  | cons a t ih =>
    cases hf : f a <;> simp [List.filterMap_cons, hf, List.countP_cons, ih]

lemma parseBgpLines_filterMap (p : String → Option BgpEntry)
    (hp : p (String.mk []) = none) (ls : List (List Char)) :
    parseBgpLines p ls = ls.filterMap (fun l => p (String.mk (trimChars l))) := by
  induction ls with
  | nil => rfl
  | cons l t ih =>
    rcases hl : trimChars l with _ | ⟨c, cs⟩
    · simp only [parseBgpLines, hl, List.filterMap_cons, hp, ih]
    · rcases hpe : p (String.mk (c :: cs)) with _ | e <;>
        simp only [parseBgpLines, hl, List.filterMap_cons, hpe, ih]

/-- Claim C8: the route-table payload parser handles every line independently
(`filterMap` of the per-line parse over the newline-split payload), so a
payload with `N` JSON-parseable lines and `M` malformed lines, interleaved in
any order, parses to exactly `N` entries; it is a total function, so no error
is ever raised.  The hypothesis models that `JSON.parse` of an empty (or
whitespace-only, after trimming) line throws. -/
theorem malformed_line_tolerance (p : String → Option BgpEntry) (body : String)
    (hp : p (String.mk []) = none) :
    parseBgpText p body
      = (splitOnChar '\n' body.data).filterMap (fun l => p (String.mk (trimChars l)))
    ∧ (parseBgpText p body).length
      = (splitOnChar '\n' body.data).countP
          (fun l => (p (String.mk (trimChars l))).isSome) := by
  have h1 := parseBgpLines_filterMap p hp (splitOnChar '\n' body.data)
  refine ⟨h1, ?_⟩
  unfold parseBgpText
  rw [h1, length_filterMap_eq_countP]

/-- The `JSON.parse` oracle of the C8 witness: exactly the line `A` parses. -/
def jsonP0 : String → Option BgpEntry :=
  fun s => if s = ("A") then some ⟨"1.1.1.0/24", 13335, 100⟩ else none

/-- Witness for C8: a payload of two parseable lines interleaved with a
malformed line and a blank line parses to exactly two entries. -/
theorem malformed_line_tolerance_witness :
    (parseBgpText jsonP0 ("A\nx\n\nA")).length = 2 := by
  have h := malformed_line_tolerance jsonP0 ("A\nx\n\nA") (by decide)
  rw [h.2]
  decide

/-- Claim C9: a present ASN parameter on which `parseInt` yields `NaN` is
rejected with a structured `400` envelope, and zero upstream HTTP requests
are issued (the second component of `handlerGET` counts them). -/
theorem invalid_asn_rejected (s : String) (w : World) (h : jsParseInt s = none) :
    handlerGET (some s) w
      = ({ status := 400, success := false, error := some "Invalid ASN"
         , result := none, isps := none, cached := false }, 0) := by
  simp [handlerGET, h]

/-- Witness for C9 at the parameter value `abc`. -/
theorem invalid_asn_rejected_witness :
    handlerGET (some ("abc")) wBgpDown
      = ({ status := 400, success := false, error := some "Invalid ASN"
         , result := none, isps := none, cached := false }, 0) :=
  invalid_asn_rejected ("abc") wBgpDown (by decide)
